import Mathlib

/-!
# Verification of the epic-stack account-flow handlers

A shallow embedding of the server-side account flows (signup onboarding,
provider onboarding, login, password create/change/reset, profile photo)
of the repository, together with theorems checking the specification's
claims about them.

Cookie-backed sessions are modelled as association lists of string keys to
session values; the database is a record of row lists; each route action is
a Lean function from the database, the request's auth state, the
verification cookie and the parsed form to the resulting database and
response.  Helpers of the repository that are not part of the provided
sources (auth.server.ts, verify.server.ts, user-validation.ts, misc
libraries) are modelled from the specification and marked as such in their
doc comments.
-/

/-- A value stored in a cookie session: either a string, or some non-string
JSON value (the guards in the source check `typeof v === 'string'`). -/
inductive SVal where
  | str (s : String)
  | other
deriving DecidableEq, Repr

/-- Cookie-backed session data: an association list from keys to values. -/
abbrev SessionData := List (String × SVal)

/-- Read a key from a cookie session (`session.get(key)`). -/
def sessionGet (d : SessionData) (k : String) : Option SVal :=
  (d.find? (fun p => p.1 == k)).map Prod.snd

/-- Write a key into a cookie session (`session.set(key, value)`). -/
def sessionSet (d : SessionData) (k : String) (v : SVal) : SessionData :=
  (k, v) :: d.filter (fun p => p.1 != k)

/-- User row (Prisma `User`). -/
structure User where
  id : String
  email : String
  username : String
  name : String
deriving DecidableEq, Repr

/-- Password credential row (Prisma `Password`, at most one per user). -/
structure PasswordRow where
  userId : String
  hash : String
deriving DecidableEq, Repr

/-- Profile image row (Prisma `UserImage`); the blob is tracked by its
size, which is all the handlers inspect. -/
structure UserImage where
  userId : String
  contentType : String
  blobSize : Nat
deriving DecidableEq, Repr

/-- Auth session row (Prisma `Session`): `{ id, userId, expirationDate }`. -/
structure SessionRow where
  id : String
  userId : String
  expirationDate : Nat
deriving DecidableEq, Repr

/-- One-time-code verification record, identified by `(type, target)`. -/
structure VerificationRow where
  vtype : String
  target : String
deriving DecidableEq, Repr

/-- Provider connection row (Prisma `Connection`). -/
structure ConnectionRow where
  userId : String
  providerId : String
  providerName : String
deriving DecidableEq, Repr

/-- The relational state the handlers read and write. -/
structure DB where
  users : List User
  passwords : List PasswordRow
  images : List UserImage
  sessions : List SessionRow
  verifications : List VerificationRow
  connections : List ConnectionRow
deriving DecidableEq, Repr

/-- Headers (`set-cookie`) a response can carry: committing the auth session
(with an optional cookie expiry), committing the verification session, or
destroying the verification session. -/
inductive SetCookie where
  | commitAuth (d : SessionData) (expires : Option Nat)
  | commitVerify (d : SessionData)
  | destroyVerify
deriving DecidableEq, Repr

/-- The error report `report(submission, { error, hideFields })` builds:
per-field errors, form-level errors, the `hideFields` option that was
passed, and the submitted values echoed back (submitted pairs minus the
hidden fields). -/
structure ErrorReport where
  fieldErrors : List (String × List String)
  formErrors : List String
  hiddenFields : List String
  echo : List (String × String)
deriving DecidableEq, Repr

/-- Responses produced by the route handlers. -/
inductive Response where
  | errorData (status : Nat) (rep : ErrorReport)
  | redirect (location : String) (status : Nat) (cookies : List SetCookie)
  | redirectWithToast (location : String) (status : Nat) (cookies : List SetCookie)
      (toastTitle : String)
deriving DecidableEq, Repr

/-- Echoed values of a report: the submitted pairs minus the hidden fields. -/
def reportEcho (pairs : List (String × String)) (hidden : List String) :
    List (String × String) :=
  pairs.filter (fun p => !(hidden.contains p.1))

/-- Build the error report `report(submission, { error, hideFields })`. -/
def mkReport (pairs : List (String × String)) (hidden : List String)
    (fieldErrors : List (String × List String)) (formErrors : List String) :
    ErrorReport :=
  ⟨fieldErrors, formErrors, hidden, reportEcho pairs hidden⟩

/-- Serialize an optional text field of a form for echoing. -/
def optPair (k : String) (v : Option String) : List (String × String) :=
  match v with
  | some s => [(k, s)]
  | none => []

/-- Look a user up by email or username, as in
`prisma.user.findFirst` with `OR: [{ email: target }, { username: target }]`. -/
def findUserByEmailOrUsername (db : DB) (target : String) : Option User :=
  db.users.find? (fun u => u.email == target || u.username == target)

/-- Session key set by the reset-password verification handler. -/
def resetPasswordUsernameSessionKey : String := "resetPasswordUsername"

/-- Session key set by the signup verification handler, read by onboarding. -/
def onboardingEmailSessionKey : String := "onboardingEmail"

/-- Session key for the provider id during provider onboarding. -/
def providerIdKey : String := "providerId"

/-- Modelled from the spec: the auth-session cookie "stores only a session
id"; the key under which it is stored lives in auth.server.ts, which is not
among the provided sources. -/
def sessionKey : String := "sessionId"

/-- The `handleVerification` of the reset-password flow (reset-password.server.ts):
look the target up by email or username; if no user matches, answer 400 with
the field error `code: ['Invalid code']` (deliberately not revealing that the
target is unknown); otherwise put the username into a fresh verification
session and redirect to `/reset-password`, committing that session. -/
def resetHandleVerification (db : DB) (target : String) : Response :=
  match findUserByEmailOrUsername db target with
  | none =>
      .errorData 400 (mkReport [] [] [("code", ["Invalid code"])] [])
  | some user =>
      .redirect "/reset-password" 302
        [.commitVerify (sessionSet [] resetPasswordUsernameSessionKey (.str user.username))]

/-- Modelled from the spec: the error report `validateRequest`
(verify.server.ts, not among the provided sources) produces when the
submitted one-time code does not match — "a field-level error report
(`{ code: ['Invalid code'] }`)". -/
def codeMismatchError : Response :=
  .errorData 400 (mkReport [] [] [("code", ["Invalid code"])] [])

/-- Modelled from the spec: on successful code validation the verify entry
point (verify.server.ts, not among the provided sources) "deletes the record
unless the type is flagged persistent, then dispatches to the flow-specific
completion handler keyed by type". -/
def deleteVerification (db : DB) (vtype target : String) : DB :=
  { db with
    verifications :=
      db.verifications.filter (fun v => !(v.vtype == vtype && v.target == target)) }

/-- Modelled from the spec: the verify entry point for the reset-password
type — delete the `(reset-password, target)` record, then dispatch to
`resetHandleVerification`. -/
def verifyResetPassword (db : DB) (target : String) : DB × Response :=
  let db' := deleteVerification db "reset-password" target
  (db', resetHandleVerification db' target)


example :
    resetHandleVerification
      ⟨[⟨"u1", "a@b.c", "alice", "Alice"⟩], [], [], [], [], []⟩ "alice" =
    .redirect "/reset-password" 302
      [.commitVerify [(resetPasswordUsernameSessionKey, .str "alice")]] := by decide

/-! ## Spec-modelled helpers from auth.server.ts and friends -/

/-- Modelled from the spec: password hashing (auth.server.ts, not among the
provided sources); only injectivity-as-a-tag matters to the handlers. -/
def getPasswordHash (p : String) : String := "bcrypt$" ++ p

/-- Modelled from the spec: `verifyUserPassword({ id }, password)` — "re-verifies
currentPassword against the stored hash". Looks up the user's password row and
compares hashes. -/
def verifyUserPassword (db : DB) (userId : String) (pw : String) : Bool :=
  match db.passwords.find? (fun r => r.userId == userId) with
  | some r => r.hash == getPasswordHash pw
  | none => false

/-- Modelled from the spec: the auth-session lifetime used by
signup/login when creating the persisted session record. -/
def SESSION_EXPIRATION_TIME : Nat := 1000 * 60 * 60 * 24 * 30

/-- Modelled from the spec: `signup` (auth.server.ts) creates the user, its
password credential and a fresh auth session whose `expirationDate` drives
cookie expiry; returns the session row. -/
def signup (db : DB) (email username name password : String) (now : Nat) :
    DB × SessionRow :=
  let uid := "user$" ++ username
  let srow : SessionRow :=
    ⟨"session$" ++ username, uid, now + SESSION_EXPIRATION_TIME⟩
  ({ db with
      users := db.users ++ [⟨uid, email, username, name⟩]
      passwords := db.passwords ++ [⟨uid, getPasswordHash password⟩]
      sessions := db.sessions ++ [srow] },
   srow)

/-- Modelled from the spec: `signupWithConnection` (auth.server.ts) creates
the user, the provider connection and a fresh auth session; no password
credential is created. -/
def signupWithConnection (db : DB) (email username name providerId providerName : String)
    (now : Nat) : DB × SessionRow :=
  let uid := "user$" ++ username
  let srow : SessionRow :=
    ⟨"session$" ++ username, uid, now + SESSION_EXPIRATION_TIME⟩
  ({ db with
      users := db.users ++ [⟨uid, email, username, name⟩]
      sessions := db.sessions ++ [srow]
      connections := db.connections ++ [⟨uid, providerId, providerName⟩] },
   srow)

/-- Modelled from the spec: `resetUserPassword` (auth.server.ts) replaces the
password hash of the user with the given username. -/
def resetUserPassword (db : DB) (username password : String) : DB :=
  match db.users.find? (fun u => u.username == username) with
  | none => db
  | some u =>
      { db with
        passwords :=
          db.passwords.map (fun r =>
            if r.userId == u.id then { r with hash := getPasswordHash password } else r) }

/-- Modelled from the spec: `requireAnonymous` (auth.server.ts) — "anonymous-only
pages redirect authenticated actors away". The request's auth state is the
optional id of the logged-in user. -/
def requireAnonymous (authUserId : Option String) : Except Response Unit :=
  match authUserId with
  | some _ => .error (.redirect "/" 302 [])
  | none => .ok ()

/-- Modelled from the spec: `requireUserId` (auth.server.ts) — authenticated
pages redirect anonymous actors to the login page. -/
def requireUserId (authUserId : Option String) : Except Response String :=
  match authUserId with
  | some uid => .ok uid
  | none => .error (.redirect "/login" 302 [])

/-- Modelled from the spec: `safeRedirect` (remix-utils) falls back to the root
path when the requested target is absent or not a local path. -/
def safeRedirect (r : Option String) : String :=
  match r with
  | some s => if s.startsWith "/" && !(s.startsWith "//") then s else "/"
  | none => "/"

/-! ## Spec-modelled field schemas from user-validation.ts -/

/-- Modelled from the spec: `UsernameSchema` (user-validation.ts, not among
the provided sources) — a non-empty username string. -/
def usernameOk (s : String) : Bool := !(s.isEmpty)

/-- Modelled from the spec: `NameSchema` — a non-empty display name. -/
def nameOk (s : String) : Bool := !(s.isEmpty)

/-- Modelled from the spec: `PasswordSchema` — a non-empty password string
(the change-password handler relies only on truthiness of the fields). -/
def passwordOk (s : String) : Bool := !(s.isEmpty)

/-- Field errors for one required field validated by `ok`: absent fields get
the required error, present ones the field rule. -/
def requiredField (k : String) (ok : String → Bool) (v : Option String) :
    List (String × List String) :=
  match v with
  | none => [(k, ["Required"])]
  | some s => if ok s then [] else [(k, ["Invalid"])]

/-- Modelled from the spec (user-validation.ts): the errors of
`PasswordAndConfirmPasswordSchema` — both fields pass `PasswordSchema` and,
when both parse, a refinement demands they match, reporting on
`confirmPassword`. -/
def passwordPairErrors (password confirmPassword : Option String) :
    List (String × List String) :=
  let base := requiredField "password" passwordOk password
    ++ requiredField "confirmPassword" passwordOk confirmPassword
  if base.isEmpty then
    match password, confirmPassword with
    | some p, some c =>
        if c == p then [] else [("confirmPassword", ["The passwords must match"])]
    | _, _ => []
  else base

/-! ## Onboarding (app/routes/_auth+/onboarding.tsx) -/

/-- The submission fields of the onboarding signup form, as parsed and
coerced from the form data (checkboxes become booleans when present). -/
structure OnboardingForm where
  username : Option String
  name : Option String
  agree : Option Bool
  remember : Option Bool
  redirectTo : Option String
  password : Option String
  confirmPassword : Option String
deriving DecidableEq, Repr

/-- Submitted pairs of the onboarding form, for the report's echo. -/
def OnboardingForm.pairs (f : OnboardingForm) : List (String × String) :=
  optPair "username" f.username ++ optPair "name" f.name
    ++ (match f.agree with
        | some _ => [("agreeToTermsOfServiceAndPrivacyPolicy", "on")]
        | none => [])
    ++ (match f.remember with | some _ => [("remember", "on")] | none => [])
    ++ optPair "redirectTo" f.redirectTo
    ++ optPair "password" f.password ++ optPair "confirmPassword" f.confirmPassword

/-- Base errors of `SignupFormSchema`: the object fields plus the
password/confirm-password pair (`.and(PasswordAndConfirmPasswordSchema)`).
The `agreeToTermsOfServiceAndPrivacyPolicy` checkbox is a required boolean
with a custom required error. -/
def signupFormErrors (f : OnboardingForm) : List (String × List String) :=
  requiredField "username" usernameOk f.username
    ++ requiredField "name" nameOk f.name
    ++ (match f.agree with
        | some _ => []
        | none =>
            [("agreeToTermsOfServiceAndPrivacyPolicy",
              ["You must agree to the terms of service and privacy policy"])])
    ++ passwordPairErrors f.password f.confirmPassword

/-- The guard `requireOnboardingEmail`: require an anonymous actor, then a non-empty
string under `onboardingEmail` in the verification cookie; otherwise throw a
redirect to `/signup`. -/
def requireOnboardingEmail (authUserId : Option String) (cookie : SessionData) :
    Except Response String := do
  let _ ← requireAnonymous authUserId
  match sessionGet cookie onboardingEmailSessionKey with
  | some (.str e) =>
      if e.isEmpty then .error (.redirect "/signup" 302 []) else .ok e
  | _ => .error (.redirect "/signup" 302 [])

/-- The onboarding loader: run the guard and render with the email. -/
def onboardingLoader (authUserId : Option String) (cookie : SessionData) :
    Except Response String :=
  requireOnboardingEmail authUserId cookie

/-- The onboarding action.  Guard; validate the signup schema; a taken
username is a field error from the `superRefine`; on validation failure
answer 400 with `report(submission, { error })` (no `hideFields`); otherwise
the `transform` runs `signup`, the auth session cookie is committed with the
persisted expiry exactly when `remember` is set, the verification session is
destroyed, and the response is a toast redirect to the (safe) target. -/
def onboardingAction (db : DB) (authUserId : Option String) (cookie : SessionData)
    (authCookie : SessionData) (f : OnboardingForm) (now : Nat) : DB × Response :=
  match requireOnboardingEmail authUserId cookie with
  | .error r => (db, r)
  | .ok email =>
    let baseErrs := signupFormErrors f
    if baseErrs.isEmpty then
      if db.users.any (fun u => u.username == f.username.getD "") then
        (db, .errorData 400
          (mkReport f.pairs []
            [("username", ["A user already exists with this username"])] []))
      else
        let (db', srow) :=
          signup db email (f.username.getD "") (f.name.getD "") (f.password.getD "") now
        let authSession := sessionSet authCookie sessionKey (.str srow.id)
        (db', .redirectWithToast (safeRedirect f.redirectTo) 302
          [.commitAuth authSession
            (match f.remember with
             | some true => some srow.expirationDate
             | _ => none),
           .destroyVerify]
          "Welcome")
    else
      (db, .errorData 400 (mkReport f.pairs [] baseErrs []))

/-! ## Provider onboarding (app/routes/_auth+/onboarding_.$provider.tsx) -/

/-- The submission fields of the provider onboarding form. -/
structure ProviderForm where
  imageUrl : Option String
  username : Option String
  name : Option String
  agree : Option Bool
  remember : Option Bool
  redirectTo : Option String
deriving DecidableEq, Repr

/-- Submitted pairs of the provider onboarding form. -/
def ProviderForm.pairs (f : ProviderForm) : List (String × String) :=
  optPair "imageUrl" f.imageUrl ++ optPair "username" f.username
    ++ optPair "name" f.name
    ++ (match f.agree with
        | some _ => [("agreeToTermsOfServiceAndPrivacyPolicy", "on")]
        | none => [])
    ++ (match f.remember with | some _ => [("remember", "on")] | none => [])
    ++ optPair "redirectTo" f.redirectTo

/-- Base errors of the provider `SignupFormSchema` (no password fields). -/
def providerFormErrors (f : ProviderForm) : List (String × List String) :=
  requiredField "username" usernameOk f.username
    ++ requiredField "name" nameOk f.name
    ++ (match f.agree with
        | some _ => []
        | none =>
            [("agreeToTermsOfServiceAndPrivacyPolicy",
              ["You must agree to the terms of service and privacy policy"])])

/-- Modelled from the spec: the provider names accepted by
`ProviderNameSchema` (connections.tsx, not among the provided sources). -/
def providerNames : List String := ["github"]

/-- The guard `requireData` of the provider onboarding route: require anonymity, then a
string email, a string provider id in the verification cookie and a known
provider name in the URL; otherwise redirect to `/signup`. -/
def requireProviderData (authUserId : Option String) (cookie : SessionData)
    (providerParam : String) : Except Response (String × String × String) := do
  let _ ← requireAnonymous authUserId
  match sessionGet cookie onboardingEmailSessionKey,
      sessionGet cookie providerIdKey with
  | some (.str email), some (.str pid) =>
      if providerNames.contains providerParam then .ok (email, pid, providerParam)
      else .error (.redirect "/signup" 302 [])
  | _, _ => .error (.redirect "/signup" 302 [])

/-- The provider onboarding action: guard, validate (taken username is a
refine error), on failure 400 `report(submission, { error })`; on success
`signupWithConnection`, auth cookie committed with the persisted expiry
exactly when `remember` is set, verification session destroyed, toast
redirect. -/
def providerOnboardingAction (db : DB) (authUserId : Option String)
    (cookie : SessionData) (authCookie : SessionData) (providerParam : String)
    (f : ProviderForm) (now : Nat) : DB × Response :=
  match requireProviderData authUserId cookie providerParam with
  | .error r => (db, r)
  | .ok (email, pid, pname) =>
    let baseErrs := providerFormErrors f
    if baseErrs.isEmpty then
      if db.users.any (fun u => u.username == f.username.getD "") then
        (db, .errorData 400
          (mkReport f.pairs []
            [("username", ["A user already exists with this username"])] []))
      else
        let (db', srow) :=
          signupWithConnection db email (f.username.getD "") (f.name.getD "")
            pid pname now
        let authSession := sessionSet authCookie sessionKey (.str srow.id)
        (db', .redirectWithToast (safeRedirect f.redirectTo) 302
          [.commitAuth authSession
            (match f.remember with
             | some true => some srow.expirationDate
             | _ => none),
           .destroyVerify]
          "Welcome")
    else
      (db, .errorData 400 (mkReport f.pairs [] baseErrs []))

/-! ## Reset password (app/routes/_auth+/reset-password.tsx) -/

/-- The submission fields of the reset-password form. -/
structure ResetPasswordForm where
  password : Option String
  confirmPassword : Option String
deriving DecidableEq, Repr

/-- Submitted pairs of the reset-password form. -/
def ResetPasswordForm.pairs (f : ResetPasswordForm) : List (String × String) :=
  optPair "password" f.password ++ optPair "confirmPassword" f.confirmPassword

/-- The guard `requireResetPasswordUsername`: require anonymity, then a non-empty
string under `resetPasswordUsername` in the verification cookie; otherwise
throw a redirect to `/login`. -/
def requireResetPasswordUsername (authUserId : Option String)
    (cookie : SessionData) : Except Response String := do
  let _ ← requireAnonymous authUserId
  match sessionGet cookie resetPasswordUsernameSessionKey with
  | some (.str u) =>
      if u.isEmpty then .error (.redirect "/login" 302 []) else .ok u
  | _ => .error (.redirect "/login" 302 [])

/-- The reset-password action: guard; validate
`PasswordAndConfirmPasswordSchema`; on failure 400
`report(submission, { error })` (no `hideFields`); on success
`resetUserPassword` and a redirect to `/login` destroying the verification
session. -/
def resetPasswordAction (db : DB) (authUserId : Option String)
    (cookie : SessionData) (f : ResetPasswordForm) : DB × Response :=
  match requireResetPasswordUsername authUserId cookie with
  | .error r => (db, r)
  | .ok username =>
    let errs := passwordPairErrors f.password f.confirmPassword
    if errs.isEmpty then
      (resetUserPassword db username (f.password.getD ""),
       .redirect "/login" 302 [.destroyVerify])
    else
      (db, .errorData 400 (mkReport f.pairs [] errs []))

/-! ## Change password (settings profile.password route) -/

/-- The submission fields of the change-password form. -/
structure ChangePasswordForm where
  currentPassword : Option String
  newPassword : Option String
  confirmNewPassword : Option String
deriving DecidableEq, Repr

/-- Submitted pairs of the change-password form. -/
def ChangePasswordForm.pairs (f : ChangePasswordForm) : List (String × String) :=
  optPair "currentPassword" f.currentPassword
    ++ optPair "newPassword" f.newPassword
    ++ optPair "confirmNewPassword" f.confirmNewPassword

/-- Base field errors of `ChangePasswordForm`: all three fields must pass
`PasswordSchema`. -/
def changePasswordBaseErrors (f : ChangePasswordForm) : List (String × List String) :=
  requiredField "currentPassword" passwordOk f.currentPassword
    ++ requiredField "newPassword" passwordOk f.newPassword
    ++ requiredField "confirmNewPassword" passwordOk f.confirmNewPassword

/-- Refinement errors of `ChangePasswordForm` once the base object parses:
the inner `superRefine` demands `confirmNewPassword === newPassword`
(reported on `confirmNewPassword`), and the outer async `superRefine`
verifies `currentPassword` against the stored hash, reporting
`Incorrect password.` on `currentPassword` on mismatch.  Both refinements
run when the base object parses, so their issues can accumulate. -/
def changePasswordRefineErrors (db : DB) (userId : String)
    (f : ChangePasswordForm) : List (String × List String) :=
  (match f.newPassword, f.confirmNewPassword with
   | some np, some cnp =>
       if cnp == np then [] else [("confirmNewPassword", ["The passwords must match"])]
   | _, _ => [])
    ++ (match f.currentPassword, f.newPassword with
        | some cp, some np =>
            if !(cp.isEmpty) && !(np.isEmpty) then
              if verifyUserPassword db userId cp then []
              else [("currentPassword", ["Incorrect password."])]
            else []
        | _, _ => [])

/-- All validation errors of the change-password submission. -/
def changePasswordErrors (db : DB) (userId : String) (f : ChangePasswordForm) :
    List (String × List String) :=
  let base := changePasswordBaseErrors f
  if base.isEmpty then changePasswordRefineErrors db userId f else base

/-- The guard `requirePassword`: redirect users without a password credential to the
create-password page. -/
def requirePassword (db : DB) (userId : String) : Except Response Unit :=
  match db.passwords.find? (fun r => r.userId == userId) with
  | some _ => .ok ()
  | none => .error (.redirect "/settings/profile/password/create" 302 [])

/-- The change-password action: require an authenticated user that has a
password; validate; on failure 400 with
`hideFields: ['currentPassword', 'newPassword', 'confirmNewPassword']`;
on success update the stored hash to the new password and redirect with a
toast to `/settings/profile` with status 302. -/
def changePasswordAction (db : DB) (authUserId : Option String)
    (f : ChangePasswordForm) : DB × Response :=
  match requireUserId authUserId with
  | .error r => (db, r)
  | .ok userId =>
    match requirePassword db userId with
    | .error r => (db, r)
    | .ok _ =>
      let errs := changePasswordErrors db userId f
      if errs.isEmpty then
        ({ db with
            passwords :=
              db.passwords.map (fun r =>
                if r.userId == userId then
                  { r with hash := getPasswordHash (f.newPassword.getD "") }
                else r) },
         .redirectWithToast "/settings/profile" 302 [] "Password Changed")
      else
        (db, .errorData 400
          (mkReport f.pairs
            ["currentPassword", "newPassword", "confirmNewPassword"] errs []))

/-! ## Create password, two implementations of the same route -/

/-- The submission fields of the create-password form. -/
structure CreatePasswordForm where
  password : Option String
  confirmPassword : Option String
deriving DecidableEq, Repr

/-- Submitted pairs of the create-password form. -/
def CreatePasswordForm.pairs (f : CreatePasswordForm) : List (String × String) :=
  optPair "password" f.password ++ optPair "confirmPassword" f.confirmPassword

/-- The guard `requireNoPassword`: redirect users that already have a password
credential to the change-password page. -/
def requireNoPassword (db : DB) (userId : String) : Except Response Unit :=
  match db.passwords.find? (fun r => r.userId == userId) with
  | some _ => .error (.redirect "/settings/profile/password" 302 [])
  | none => .ok ()

/-- Create the password credential for a user
(`prisma.user.update` with a nested `password.create`). -/
def createPasswordRow (db : DB) (userId password : String) : DB :=
  { db with passwords := db.passwords ++ [⟨userId, getPasswordHash password⟩] }

/-- Whether a conform submission is a submit or a validation intent. -/
inductive SubmissionType where
  | submit
  | validate
deriving DecidableEq, Repr

/-- Responses of the legacy (`parseWithZod` / `submission.reject`)
create-password action, kept distinct from `Response` to compare the two
implementations observationally. -/
inductive LegacyResponse where
  | jsonReject (status : Nat) (fieldErrors : List (String × List String))
      (hiddenFields : List String) (echo : List (String × String))
  | redirect (location : String) (status : Nat)
deriving DecidableEq, Repr

/-- The legacy create-password action (`parseWithZod` version): guard via
`requireUserId` and `requireNoPassword`; on invalid submission return
`submission.reject({ hideFields: ['password', 'confirmPassword'] })` with
status 400 for submit-type submissions and 200 otherwise; on success create
the hash and redirect to `/settings/profile` with status 302. -/
def createPasswordActionLegacy (db : DB) (authUserId : Option String)
    (stype : SubmissionType) (f : CreatePasswordForm) : DB × LegacyResponse :=
  match requireUserId authUserId with
  | .error _ =>
      (db, .redirect "/login" 302)
  | .ok userId =>
    match requireNoPassword db userId with
    | .error _ => (db, .redirect "/settings/profile/password" 302)
    | .ok _ =>
      let errs := passwordPairErrors f.password f.confirmPassword
      if errs.isEmpty then
        (createPasswordRow db userId (f.password.getD ""),
         .redirect "/settings/profile" 302)
      else
        (db, .jsonReject (match stype with | .submit => 400 | .validate => 200)
          errs ["password", "confirmPassword"]
          (reportEcho f.pairs ["password", "confirmPassword"]))

/-- The current create-password action (conform-react version): the same
guards; on invalid submission 400 with
`report(submission, { error, hideFields: ['password', 'confirmPassword'] })`;
on success create the hash and redirect to `/settings/profile` with
status 302. -/
def createPasswordAction (db : DB) (authUserId : Option String)
    (f : CreatePasswordForm) : DB × Response :=
  match requireUserId authUserId with
  | .error r => (db, r)
  | .ok userId =>
    match requireNoPassword db userId with
    | .error r => (db, r)
    | .ok _ =>
      let errs := passwordPairErrors f.password f.confirmPassword
      if errs.isEmpty then
        (createPasswordRow db userId (f.password.getD ""),
         .redirect "/settings/profile" 302 [])
      else
        (db, .errorData 400
          (mkReport f.pairs ["password", "confirmPassword"] errs []))

/-! ## Profile photo (app/routes/settings+/profile.photo.tsx) -/

/-- The maximum accepted upload size (3 MiB). -/
def MAX_SIZE : Nat := 1024 * 1024 * 3

/-- An uploaded file as the handler sees it. -/
structure PhotoFile where
  size : Nat
  contentType : String
deriving DecidableEq, Repr

/-- The photo form after form-data parsing: the `intent` value and the
uploaded file, when one was submitted. -/
structure PhotoFormInput where
  intent : Option String
  photoFile : Option PhotoFile
deriving DecidableEq, Repr

/-- Submitted pairs of the photo form (files are not echoed). -/
def PhotoFormInput.pairs (f : PhotoFormInput) : List (String × String) :=
  optPair "intent" f.intent

/-- The parsed photo submission after schema validation and `transform`. -/
inductive PhotoIntent where
  | deleteIntent
  | submitIntent (contentType : String) (blobSize : Nat)
deriving DecidableEq, Repr

/-- Validation of `PhotoFormSchema` (a discriminated union on `intent`):
`delete` needs nothing more; `submit` needs a file that is non-empty
(`Image is required`) and at most `MAX_SIZE` bytes
(`Image size must be less than 3MB`). -/
def validatePhotoForm (f : PhotoFormInput) :
    Except (List (String × List String)) PhotoIntent :=
  match f.intent with
  | some "delete" => .ok .deleteIntent
  | some "submit" =>
      match f.photoFile with
      | none => .error [("photoFile", ["Required"])]
      | some file =>
          if file.size == 0 then .error [("photoFile", ["Image is required"])]
          else if file.size > MAX_SIZE then
            .error [("photoFile", ["Image size must be less than 3MB"])]
          else .ok (.submitIntent file.contentType file.size)
  | _ => .error [("intent", ["Invalid discriminator value"])]

/-- Delete all of a user's image rows
(`prisma.userImage.deleteMany` on the user id). -/
def deleteUserImages (db : DB) (userId : String) : DB :=
  { db with images := db.images.filter (fun i => i.userId != userId) }

/-- The transaction wrapper: the delete-then-create pair runs as one atomic
state transition; the embedding applies the composite function in a single
step, so no intermediate state is ever observable. -/
def prismaTransaction (f : DB → DB) (db : DB) : DB := f db

/-- The photo action: require an authenticated user; validate; on failure
400 `report(submission, { error })`; `delete` intent removes the user's
images and redirects; `submit` intent atomically replaces the user's images
with the new one and redirects to `/settings/profile`. -/
def photoAction (db : DB) (authUserId : Option String) (f : PhotoFormInput) :
    DB × Response :=
  match requireUserId authUserId with
  | .error r => (db, r)
  | .ok userId =>
    match validatePhotoForm f with
    | .error errs => (db, .errorData 400 (mkReport f.pairs [] errs []))
    | .ok .deleteIntent =>
        (deleteUserImages db userId, .redirect "/settings/profile" 302 [])
    | .ok (.submitIntent ct size) =>
        (prismaTransaction
          (fun d =>
            let d' := deleteUserImages d userId
            { d' with images := d'.images ++ [⟨userId, ct, size⟩] })
          db,
         .redirect "/settings/profile" 302 [])

/-! ## Login (app/routes/_auth+/login.tsx) -/

/-- The submission fields of the login form. -/
structure LoginForm where
  username : Option String
  password : Option String
  redirectTo : Option String
  remember : Option Bool
deriving DecidableEq, Repr

/-- Submitted pairs of the login form. -/
def LoginForm.pairs (f : LoginForm) : List (String × String) :=
  optPair "username" f.username ++ optPair "password" f.password
    ++ optPair "redirectTo" f.redirectTo
    ++ (match f.remember with | some _ => [("remember", "on")] | none => [])

/-- Base errors of `LoginFormSchema`. -/
def loginFormErrors (f : LoginForm) : List (String × List String) :=
  requiredField "username" usernameOk f.username
    ++ requiredField "password" passwordOk f.password

/-- Modelled from the spec: `login` (auth.server.ts) verifies the credentials
and on success creates a fresh auth session for the user. -/
def login (db : DB) (username password : String) (now : Nat) :
    Option (DB × SessionRow) :=
  match db.users.find? (fun u => u.username == username) with
  | none => none
  | some u =>
      if verifyUserPassword db u.id password then
        let srow : SessionRow :=
          ⟨"session$" ++ username, u.id, now + SESSION_EXPIRATION_TIME⟩
        some ({ db with sessions := db.sessions ++ [srow] }, srow)
      else none

/-- The login action: require anonymity; validate; the `transform` runs
`login` and turns a credential failure into the form-level error
`Invalid username or password`; every failure report hides the `password`
field; on success `handleNewSession` commits the auth cookie and redirects. -/
def loginAction (db : DB) (authUserId : Option String) (authCookie : SessionData)
    (f : LoginForm) (now : Nat) : DB × Response :=
  match requireAnonymous authUserId with
  | .error r => (db, r)
  | .ok _ =>
    let baseErrs := loginFormErrors f
    if baseErrs.isEmpty then
      match login db (f.username.getD "") (f.password.getD "") now with
      | none =>
          (db, .errorData 400
            (mkReport f.pairs ["password"] [] ["Invalid username or password"]))
      | some (db', srow) =>
          let authSession := sessionSet authCookie sessionKey (.str srow.id)
          (db', .redirect (safeRedirect f.redirectTo) 302
            [.commitAuth authSession
              (match f.remember with
               | some true => some srow.expirationDate
               | _ => none)])
    else
      (db, .errorData 400 (mkReport f.pairs ["password"] baseErrs []))

/-! ## Observation helpers and concrete fixtures -/

/-- Decidable equality on guard results, for concrete evaluation. -/
instance exceptDecEq {ε α : Type} [DecidableEq ε] [DecidableEq α] :
    DecidableEq (Except ε α)
  | .ok a, .ok b =>
      if h : a = b then .isTrue (by rw [h]) else .isFalse (by simp [h])
  | .ok _, .error _ => .isFalse (by simp)
  | .error _, .ok _ => .isFalse (by simp)
  | .error a, .error b =>
      if h : a = b then .isTrue (by rw [h]) else .isFalse (by simp [h])

/-- Whether a response is an HTTP 400 error report. -/
def isError400 : Response → Bool
  | .errorData 400 _ => true
  | _ => false

/-- The `hideFields` of a response's report (empty for non-reports). -/
def Response.hiddenOf : Response → List String
  | .errorData _ rep => rep.hiddenFields
  | _ => []

/-- The echoed values of a response's report (empty for non-reports). -/
def Response.echoOf : Response → List (String × String)
  | .errorData _ rep => rep.echo
  | _ => []

/-- The `set-cookie` headers of a response. -/
def Response.cookiesOf : Response → List SetCookie
  | .errorData _ _ => []
  | .redirect _ _ cs => cs
  | .redirectWithToast _ _ cs _ => cs


/-- An empty database. -/
def dbEmpty : DB := ⟨[], [], [], [], [], []⟩

/-- A database with one user, her password and a pending reset record. -/
def dbAlice : DB :=
  ⟨[⟨"u1", "alice@example.com", "alice", "Alice"⟩],
   [⟨"u1", getPasswordHash "hunter42!"⟩],
   [⟨"u1", "image/png", 10⟩],
   [], [⟨"reset-password", "alice"⟩], []⟩

/-- Whether the verification cookie fails to hold a non-empty string under
the `onboardingEmail` key (the condition `typeof email !== 'string' || !email`
of `requireOnboardingEmail`). -/
def onboardingEmailMissing (cookie : SessionData) : Bool :=
  match sessionGet cookie onboardingEmailSessionKey with
  | some (.str e) => e.isEmpty
  | _ => true

/-- Whether the onboarding submission fails validation: a base schema error
or the taken-username refinement. -/
def onboardingValidationFails (db : DB) (f : OnboardingForm) : Bool :=
  !(signupFormErrors f).isEmpty
    || db.users.any (fun u => u.username == f.username.getD "")

/-- Whether the provider onboarding submission fails validation. -/
def providerValidationFails (db : DB) (f : ProviderForm) : Bool :=
  !(providerFormErrors f).isEmpty
    || db.users.any (fun u => u.username == f.username.getD "")

/-- What a client can observe of a create-password response: a redirect
(location and status) or an error report (status, field errors, hidden
fields, echoed values). -/
inductive Observation where
  | seeOther (location : String) (status : Nat)
  | badRequest (status : Nat) (fieldErrors : List (String × List String))
      (hidden : List String) (echo : List (String × String))
deriving DecidableEq, Repr

/-- Observation of a legacy (`json` / `submission.reject`) response. -/
def observeLegacy : LegacyResponse → Observation
  | .jsonReject s fe h e => .badRequest s fe h e
  | .redirect l s => .seeOther l s

/-- Observation of a conform-react (`data` / `report`) response. -/
def observeResponse : Response → Observation
  | .errorData s rep => .badRequest s rep.fieldErrors rep.hiddenFields rep.echo
  | .redirect l s _ => .seeOther l s
  | .redirectWithToast l s _ _ => .seeOther l s

/-- A hidden field never appears in the echoed values of a report. -/
theorem reportEcho_not_mem (pairs : List (String × String)) (hidden : List String)
    (k : String) (hk : k ∈ hidden) (v : String) :
    (k, v) ∉ reportEcho pairs hidden := by
  unfold reportEcho
  intro hmem
  rw [List.mem_filter] at hmem
  have h2 := hmem.2
  simp at h2
  exact h2 hk

/-- With no hidden fields, the report echoes every submitted pair. -/
theorem reportEcho_nil_hidden (pairs : List (String × String)) :
    reportEcho pairs [] = pairs := by
  unfold reportEcho
  simp

/-! ## C1: anti-enumeration in the reset-password verification handler -/

/-- C1: for every reset-password verification submission whose target
matches no existing user's email or username, `handleVerification` returns
HTTP 400 with the field-level error `code: ['Invalid code']` — the same
error shape and message as a code-mismatch failure, so the response does
not reveal whether the target exists. -/
theorem c1_reset_verification_anti_enumeration (db : DB) (target : String)
    (h : findUserByEmailOrUsername db target = none) :
    resetHandleVerification db target =
      Response.errorData 400 (mkReport [] [] [("code", ["Invalid code"])] []) ∧
    resetHandleVerification db target = codeMismatchError := by
  unfold resetHandleVerification codeMismatchError
  rw [h]
  exact ⟨rfl, rfl⟩

/-- Witness for C1 at a concrete unknown target. -/
theorem c1_witness :
    findUserByEmailOrUsername dbAlice "ghost" = none ∧
    (resetHandleVerification dbAlice "ghost" =
      Response.errorData 400 (mkReport [] [] [("code", ["Invalid code"])] []) ∧
     resetHandleVerification dbAlice "ghost" = codeMismatchError) :=
  ⟨by decide, c1_reset_verification_anti_enumeration dbAlice "ghost" (by decide)⟩

/-! ## C7: successful reset-password verification -/

/-- C7: for every reset-password verification submission whose target
matches an existing user by email or username, the verify step deletes the
`(reset-password, target)` record and `handleVerification` redirects to
`/reset-password`, committing a verification session holding
`resetPasswordUsername` set to that user's username. -/
theorem c7_reset_verification_success (db : DB) (target : String) (u : User)
    (h : findUserByEmailOrUsername db target = some u) :
    verifyResetPassword db target =
      ({ db with
          verifications :=
            db.verifications.filter
              (fun v => !(v.vtype == "reset-password" && v.target == target)) },
       .redirect "/reset-password" 302
         [.commitVerify [(resetPasswordUsernameSessionKey, .str u.username)]]) ∧
    ∀ v ∈ (verifyResetPassword db target).1.verifications,
      ¬(v.vtype = "reset-password" ∧ v.target = target) := by
  have hfind :
      findUserByEmailOrUsername (deleteVerification db "reset-password" target) target =
        findUserByEmailOrUsername db target := rfl
  constructor
  · show (deleteVerification db "reset-password" target,
        resetHandleVerification (deleteVerification db "reset-password" target) target) = _
    unfold resetHandleVerification
    rw [hfind, h]
    rfl
  · intro v hv hvt
    have hv' : v ∈ (deleteVerification db "reset-password" target).verifications := hv
    unfold deleteVerification at hv'
    simp only [List.mem_filter] at hv'
    have h2 := hv'.2
    rw [hvt.1, hvt.2] at h2
    simp at h2

/-- Witness for C7: alice's pending reset record is consumed and the
session cookie carries her username. -/
theorem c7_witness :
    findUserByEmailOrUsername dbAlice "alice@example.com" =
      some ⟨"u1", "alice@example.com", "alice", "Alice"⟩ ∧
    (verifyResetPassword dbAlice "alice@example.com" =
      ({ dbAlice with
          verifications :=
            dbAlice.verifications.filter
              (fun v => !(v.vtype == "reset-password" && v.target == "alice@example.com")) },
       .redirect "/reset-password" 302
         [.commitVerify [(resetPasswordUsernameSessionKey, .str "alice")]]) ∧
     ∀ v ∈ (verifyResetPassword dbAlice "alice@example.com").1.verifications,
       ¬(v.vtype = "reset-password" ∧ v.target = "alice@example.com")) :=
  ⟨by decide,
   c7_reset_verification_success dbAlice "alice@example.com"
     ⟨"u1", "alice@example.com", "alice", "Alice"⟩ (by decide)⟩

/-! ## C6: onboarding requires the onboardingEmail cookie value -/


/-- The guard throws the `/signup` redirect whenever the cookie value is
missing, non-string or empty. -/
theorem requireOnboardingEmail_missing (cookie : SessionData)
    (h : onboardingEmailMissing cookie = true) :
    requireOnboardingEmail none cookie = .error (.redirect "/signup" 302 []) := by
  unfold onboardingEmailMissing at h
  unfold requireOnboardingEmail requireAnonymous
  rcases hg : sessionGet cookie onboardingEmailSessionKey with _ | v
  · rfl
  · cases v with
    | str e =>
        rw [hg] at h
        have h' : e.isEmpty = true := h
        show (if e.isEmpty then Except.error (Response.redirect "/signup" 302 [])
          else Except.ok e) = _
        rw [h']
        rfl
    | other => rfl

/-- C6: for every anonymous request to the onboarding loader or action whose
verification cookie does not hold a non-empty string under `onboardingEmail`,
the handler throws a redirect to `/signup`; the action does so for every
submitted form, without mutating anything, so no form data is processed. -/
theorem c6_onboarding_guard_redirects (cookie : SessionData)
    (h : onboardingEmailMissing cookie = true) :
    onboardingLoader none cookie = .error (.redirect "/signup" 302 []) ∧
    ∀ (db : DB) (authCookie : SessionData) (f : OnboardingForm) (now : Nat),
      onboardingAction db none cookie authCookie f now =
        (db, .redirect "/signup" 302 []) := by
  have hg := requireOnboardingEmail_missing cookie h
  refine ⟨hg, ?_⟩
  intro db authCookie f now
  unfold onboardingAction
  rw [hg]

/-- Witness for C6: the empty cookie and a cookie holding a non-string value
both bounce to `/signup` for an arbitrary form. -/
theorem c6_witness :
    onboardingEmailMissing [(onboardingEmailSessionKey, SVal.other)] = true ∧
    (onboardingLoader none [(onboardingEmailSessionKey, SVal.other)] =
      .error (.redirect "/signup" 302 []) ∧
     ∀ (db : DB) (authCookie : SessionData) (f : OnboardingForm) (now : Nat),
       onboardingAction db none [(onboardingEmailSessionKey, SVal.other)] authCookie f now =
         (db, .redirect "/signup" 302 [])) :=
  ⟨by decide,
   c6_onboarding_guard_redirects [(onboardingEmailSessionKey, SVal.other)] (by decide)⟩

/-! ## C2: validation failure mutates nothing -/


/-- C2: for every flow-handler action (onboarding signup, provider
onboarding, change password, create password, reset password, profile
photo), a submission that fails validation yields the HTTP 400 error report
and leaves the database unchanged: no user or session is created, no
password hash is written, no image row is deleted or created. -/
theorem c2_validation_failure_no_mutation :
    (∀ (db : DB) (auth : Option String) (cookie authCookie : SessionData)
        (f : OnboardingForm) (now : Nat) (email : String),
      requireOnboardingEmail auth cookie = .ok email →
      onboardingValidationFails db f = true →
      ∃ rep, onboardingAction db auth cookie authCookie f now =
        (db, .errorData 400 rep)) ∧
    (∀ (db : DB) (auth : Option String) (cookie authCookie : SessionData)
        (pp : String) (f : ProviderForm) (now : Nat) (v : String × String × String),
      requireProviderData auth cookie pp = .ok v →
      providerValidationFails db f = true →
      ∃ rep, providerOnboardingAction db auth cookie authCookie pp f now =
        (db, .errorData 400 rep)) ∧
    (∀ (db : DB) (uid : String) (f : ChangePasswordForm),
      requirePassword db uid = .ok () →
      (changePasswordErrors db uid f).isEmpty = false →
      ∃ rep, changePasswordAction db (some uid) f = (db, .errorData 400 rep)) ∧
    (∀ (db : DB) (uid : String) (f : CreatePasswordForm),
      requireNoPassword db uid = .ok () →
      (passwordPairErrors f.password f.confirmPassword).isEmpty = false →
      ∃ rep, createPasswordAction db (some uid) f = (db, .errorData 400 rep)) ∧
    (∀ (db : DB) (auth : Option String) (cookie : SessionData)
        (f : ResetPasswordForm) (username : String),
      requireResetPasswordUsername auth cookie = .ok username →
      (passwordPairErrors f.password f.confirmPassword).isEmpty = false →
      ∃ rep, resetPasswordAction db auth cookie f = (db, .errorData 400 rep)) ∧
    (∀ (db : DB) (uid : String) (f : PhotoFormInput)
        (errs : List (String × List String)),
      validatePhotoForm f = .error errs →
      ∃ rep, photoAction db (some uid) f = (db, .errorData 400 rep)) := by
  refine ⟨?_, ?_, ?_, ?_, ?_, ?_⟩
  · intro db auth cookie authCookie f now email hguard hfail
    unfold onboardingAction
    rw [hguard]
    unfold onboardingValidationFails at hfail
    cases hb : (signupFormErrors f).isEmpty with
    | false =>
        exact ⟨mkReport f.pairs [] (signupFormErrors f) [], by simp [hb]⟩
    | true =>
        rw [hb] at hfail
        simp at hfail
        exact ⟨mkReport f.pairs []
          [("username", ["A user already exists with this username"])] [],
          by simp [hb, hfail]⟩
  · intro db auth cookie authCookie pp f now v hguard hfail
    unfold providerOnboardingAction
    rw [hguard]
    unfold providerValidationFails at hfail
    cases hb : (providerFormErrors f).isEmpty with
    | false =>
        exact ⟨mkReport f.pairs [] (providerFormErrors f) [], by simp [hb]⟩
    | true =>
        rw [hb] at hfail
        simp at hfail
        exact ⟨mkReport f.pairs []
          [("username", ["A user already exists with this username"])] [],
          by simp [hb, hfail]⟩
  · intro db uid f hpw hfail
    unfold changePasswordAction
    rw [show requireUserId (some uid) = Except.ok uid from rfl]
    exact ⟨mkReport f.pairs
      ["currentPassword", "newPassword", "confirmNewPassword"]
      (changePasswordErrors db uid f) [], by simp [hpw, hfail]⟩
  · intro db uid f hpw hfail
    unfold createPasswordAction
    rw [show requireUserId (some uid) = Except.ok uid from rfl]
    exact ⟨mkReport f.pairs ["password", "confirmPassword"]
      (passwordPairErrors f.password f.confirmPassword) [], by simp [hpw, hfail]⟩
  · intro db auth cookie f username hguard hfail
    unfold resetPasswordAction
    rw [hguard]
    exact ⟨mkReport f.pairs []
      (passwordPairErrors f.password f.confirmPassword) [], by simp [hfail]⟩
  · intro db uid f errs hval
    unfold photoAction
    rw [show requireUserId (some uid) = Except.ok uid from rfl, hval]
    exact ⟨mkReport f.pairs [] errs [], rfl⟩

/-- Witness for C2: each of the six handlers at a concrete invalid
submission. -/
theorem c2_witness :
    (requireOnboardingEmail none [(onboardingEmailSessionKey, SVal.str "a@b.c")] =
        .ok "a@b.c" ∧
     onboardingValidationFails dbEmpty ⟨none, none, none, none, none, none, none⟩ = true ∧
     ∃ rep, onboardingAction dbEmpty none
        [(onboardingEmailSessionKey, SVal.str "a@b.c")] []
        ⟨none, none, none, none, none, none, none⟩ 0 = (dbEmpty, .errorData 400 rep)) ∧
    (requireProviderData none
        [(onboardingEmailSessionKey, SVal.str "a@b.c"), (providerIdKey, SVal.str "p1")]
        "github" = .ok ("a@b.c", "p1", "github") ∧
     providerValidationFails dbEmpty ⟨none, none, none, none, none, none⟩ = true ∧
     ∃ rep, providerOnboardingAction dbEmpty none
        [(onboardingEmailSessionKey, SVal.str "a@b.c"), (providerIdKey, SVal.str "p1")]
        [] "github" ⟨none, none, none, none, none, none⟩ 0 = (dbEmpty, .errorData 400 rep)) ∧
    (requirePassword dbAlice "u1" = .ok () ∧
     (changePasswordErrors dbAlice "u1" ⟨none, none, none⟩).isEmpty = false ∧
     ∃ rep, changePasswordAction dbAlice (some "u1") ⟨none, none, none⟩ =
        (dbAlice, .errorData 400 rep)) ∧
    (requireNoPassword dbEmpty "u9" = .ok () ∧
     (passwordPairErrors (none : Option String) none).isEmpty = false ∧
     ∃ rep, createPasswordAction dbEmpty (some "u9") ⟨none, none⟩ =
        (dbEmpty, .errorData 400 rep)) ∧
    (requireResetPasswordUsername none
        [(resetPasswordUsernameSessionKey, SVal.str "alice")] = .ok "alice" ∧
     (passwordPairErrors (none : Option String) none).isEmpty = false ∧
     ∃ rep, resetPasswordAction dbEmpty none
        [(resetPasswordUsernameSessionKey, SVal.str "alice")] ⟨none, none⟩ =
        (dbEmpty, .errorData 400 rep)) ∧
    (validatePhotoForm ⟨some "submit", some ⟨0, "image/png"⟩⟩ =
        .error [("photoFile", ["Image is required"])] ∧
     ∃ rep, photoAction dbAlice (some "u1") ⟨some "submit", some ⟨0, "image/png"⟩⟩ =
        (dbAlice, .errorData 400 rep)) :=
  ⟨⟨by decide, by decide,
    c2_validation_failure_no_mutation.1 dbEmpty none _ [] _ 0 "a@b.c"
      (by decide) (by decide)⟩,
   ⟨by decide, by decide,
    c2_validation_failure_no_mutation.2.1 dbEmpty none _ [] "github" _ 0
      ("a@b.c", "p1", "github") (by decide) (by decide)⟩,
   ⟨by decide, by decide,
    c2_validation_failure_no_mutation.2.2.1 dbAlice "u1" _ (by decide) (by decide)⟩,
   ⟨by decide, by decide,
    c2_validation_failure_no_mutation.2.2.2.1 dbEmpty "u9" _ (by decide) (by decide)⟩,
   ⟨by decide, by decide,
    c2_validation_failure_no_mutation.2.2.2.2.1 dbEmpty none _ _ "alice"
      (by decide) (by decide)⟩,
   ⟨by decide,
    c2_validation_failure_no_mutation.2.2.2.2.2 dbAlice "u1"
      ⟨some "submit", some ⟨0, "image/png"⟩⟩
      [("photoFile", ["Image is required"])] (by decide)⟩⟩

/-! ## C3: photo submit intent — size gate and atomic replacement -/

/-- Reduction of `validatePhotoForm` for a submit intent with a file. -/
theorem validatePhotoForm_submit (f : PhotoFormInput) (file : PhotoFile)
    (hintent : f.intent = some "submit") (hfile : f.photoFile = some file) :
    validatePhotoForm f =
      (if file.size == 0 then .error [("photoFile", ["Image is required"])]
       else if file.size > MAX_SIZE then
         .error [("photoFile", ["Image size must be less than 3MB"])]
       else .ok (.submitIntent file.contentType file.size)) := by
  unfold validatePhotoForm
  rw [hintent, hfile]
  rfl

/-- C3: for an authenticated photo submission with intent `submit`: an empty
or over-3MiB file yields HTTP 400 with the database (hence the stored image)
unchanged; otherwise the user's images are atomically replaced by exactly
the new one inside the transaction, and the action redirects to
`/settings/profile`. -/
theorem c3_photo_submit_replace (db : DB) (uid : String) (f : PhotoFormInput)
    (file : PhotoFile) (hintent : f.intent = some "submit")
    (hfile : f.photoFile = some file) :
    ((file.size = 0 ∨ MAX_SIZE < file.size) →
      ∃ rep, photoAction db (some uid) f = (db, .errorData 400 rep)) ∧
    (file.size ≠ 0 → file.size ≤ MAX_SIZE →
      photoAction db (some uid) f =
        ({ db with images :=
            db.images.filter (fun i => i.userId != uid)
              ++ [⟨uid, file.contentType, file.size⟩] },
         .redirect "/settings/profile" 302 [])) := by
  have hv := validatePhotoForm_submit f file hintent hfile
  constructor
  · intro hbad
    unfold photoAction
    rw [show requireUserId (some uid) = Except.ok uid from rfl, hv]
    rcases hbad with h0 | hbig
    · exact ⟨mkReport f.pairs [] [("photoFile", ["Image is required"])] [],
        by simp [h0]⟩
    · have h0 : (file.size == 0) = false := by
        simp
        omega
      exact ⟨mkReport f.pairs [] [("photoFile", ["Image size must be less than 3MB"])] [],
        by simp [h0, hbig]⟩
  · intro hne hle
    unfold photoAction
    rw [show requireUserId (some uid) = Except.ok uid from rfl, hv]
    have h0 : (file.size == 0) = false := by simp [hne]
    have hgt : ¬(file.size > MAX_SIZE) := by omega
    simp only [h0, Bool.false_eq_true, if_false, hgt, if_neg, not_false_iff]
    rfl

/-- Witness for C3: an empty file is rejected without touching alice's
image; a small file replaces it atomically. -/
theorem c3_witness :
    (∃ rep, photoAction dbAlice (some "u1") ⟨some "submit", some ⟨0, "image/gif"⟩⟩ =
      (dbAlice, .errorData 400 rep)) ∧
    photoAction dbAlice (some "u1") ⟨some "submit", some ⟨5, "image/jpeg"⟩⟩ =
      ({ dbAlice with images :=
          dbAlice.images.filter (fun i => i.userId != "u1")
            ++ [⟨"u1", "image/jpeg", 5⟩] },
       .redirect "/settings/profile" 302 []) :=
  ⟨(c3_photo_submit_replace dbAlice "u1" _ ⟨0, "image/gif"⟩ rfl rfl).1 (Or.inl rfl),
   (c3_photo_submit_replace dbAlice "u1" _ ⟨5, "image/jpeg"⟩ rfl rfl).2
     (by decide) (by decide)⟩

/-! ## C4: which handlers hide password fields from the echoed values -/

/-- Counterexample to C4 as stated: the onboarding signup action, given an
invalid submission that carries a password, returns a validation-failure
report whose `hideFields` is empty and whose echoed values still contain the
submitted password — so password fields are not excluded "for every handler
that accepts a password field". -/
theorem c4_counterexample :
    isError400 (onboardingAction dbEmpty none
      [(onboardingEmailSessionKey, SVal.str "a@b.c")] []
      ⟨none, some "Alice", some true, none, none, some "secret123", some "secret123"⟩
      0).2 = true ∧
    ("password", "secret123") ∈ Response.echoOf (onboardingAction dbEmpty none
      [(onboardingEmailSessionKey, SVal.str "a@b.c")] []
      ⟨none, some "Alice", some true, none, none, some "secret123", some "secret123"⟩
      0).2 ∧
    "password" ∉ Response.hiddenOf (onboardingAction dbEmpty none
      [(onboardingEmailSessionKey, SVal.str "a@b.c")] []
      ⟨none, some "Alice", some true, none, none, some "secret123", some "secret123"⟩
      0).2 := by decide

/-- C4 as amended: password fields are hidden from the echoed default
values by the login action (`password`), the create-password action
(`password`, `confirmPassword`) and the change-password action
(`currentPassword`, `newPassword`, `confirmNewPassword`); the onboarding
signup and reset-password actions pass no `hideFields`, so their
validation-failure reports echo a submitted password back. -/
theorem c4_amended_hidden_password_fields :
    (∀ (db : DB) (authCookie : SessionData) (f : LoginForm) (now : Nat),
      isError400 (loginAction db none authCookie f now).2 = true →
      Response.hiddenOf (loginAction db none authCookie f now).2 = ["password"] ∧
      ∀ v, ("password", v) ∉ Response.echoOf (loginAction db none authCookie f now).2) ∧
    (∀ (db : DB) (uid : String) (f : CreatePasswordForm),
      requireNoPassword db uid = .ok () →
      isError400 (createPasswordAction db (some uid) f).2 = true →
      Response.hiddenOf (createPasswordAction db (some uid) f).2 =
        ["password", "confirmPassword"] ∧
      ∀ v k, k ∈ (["password", "confirmPassword"] : List String) →
        (k, v) ∉ Response.echoOf (createPasswordAction db (some uid) f).2) ∧
    (∀ (db : DB) (uid : String) (f : ChangePasswordForm),
      requirePassword db uid = .ok () →
      isError400 (changePasswordAction db (some uid) f).2 = true →
      Response.hiddenOf (changePasswordAction db (some uid) f).2 =
        ["currentPassword", "newPassword", "confirmNewPassword"] ∧
      ∀ v k, k ∈ (["currentPassword", "newPassword", "confirmNewPassword"] : List String) →
        (k, v) ∉ Response.echoOf (changePasswordAction db (some uid) f).2) ∧
    (∀ (db : DB) (auth : Option String) (cookie authCookie : SessionData)
        (f : OnboardingForm) (now : Nat) (email : String),
      requireOnboardingEmail auth cookie = .ok email →
      Response.hiddenOf (onboardingAction db auth cookie authCookie f now).2 = [] ∧
      (isError400 (onboardingAction db auth cookie authCookie f now).2 = true →
        ∀ pw, f.password = some pw →
          ("password", pw) ∈
            Response.echoOf (onboardingAction db auth cookie authCookie f now).2)) ∧
    (∀ (db : DB) (auth : Option String) (cookie : SessionData)
        (f : ResetPasswordForm) (username : String),
      requireResetPasswordUsername auth cookie = .ok username →
      Response.hiddenOf (resetPasswordAction db auth cookie f).2 = [] ∧
      (isError400 (resetPasswordAction db auth cookie f).2 = true →
        ∀ pw, f.password = some pw →
          ("password", pw) ∈ Response.echoOf (resetPasswordAction db auth cookie f).2)) := by
  refine ⟨?_, ?_, ?_, ?_, ?_⟩
  · intro db authCookie f now herr
    by_cases hb : (loginFormErrors f).isEmpty = true
    · rcases hl : login db (f.username.getD "") (f.password.getD "") now with _ | ⟨db1, srow⟩
      · have hres : loginAction db none authCookie f now =
            (db, .errorData 400
              (mkReport f.pairs ["password"] [] ["Invalid username or password"])) := by
          unfold loginAction
          rw [show requireAnonymous none = Except.ok () from rfl]
          simp [hb, hl]
        rw [hres]
        exact ⟨rfl, fun v =>
          reportEcho_not_mem f.pairs ["password"] "password" (by simp) v⟩
      · have hres : loginAction db none authCookie f now =
            (db1, .redirect (safeRedirect f.redirectTo) 302
              [.commitAuth (sessionSet authCookie sessionKey (.str srow.id))
                (match f.remember with
                 | some true => some srow.expirationDate
                 | _ => none)]) := by
          unfold loginAction
          rw [show requireAnonymous none = Except.ok () from rfl]
          simp [hb, hl]
        rw [hres] at herr
        exact absurd herr (by simp [isError400])
    · have hres : loginAction db none authCookie f now =
          (db, .errorData 400 (mkReport f.pairs ["password"] (loginFormErrors f) [])) := by
        unfold loginAction
        rw [show requireAnonymous none = Except.ok () from rfl]
        simp [hb]
      rw [hres]
      exact ⟨rfl, fun v =>
        reportEcho_not_mem f.pairs ["password"] "password" (by simp) v⟩
  · intro db uid f hnp herr
    by_cases he : (passwordPairErrors f.password f.confirmPassword).isEmpty = true
    · have hres : createPasswordAction db (some uid) f =
          (createPasswordRow db uid (f.password.getD ""),
           .redirect "/settings/profile" 302 []) := by
        unfold createPasswordAction
        rw [show requireUserId (some uid) = Except.ok uid from rfl]
        simp [hnp, he]
      rw [hres] at herr
      exact absurd herr (by simp [isError400])
    · have hres : createPasswordAction db (some uid) f =
          (db, .errorData 400 (mkReport f.pairs ["password", "confirmPassword"]
            (passwordPairErrors f.password f.confirmPassword) [])) := by
        unfold createPasswordAction
        rw [show requireUserId (some uid) = Except.ok uid from rfl]
        simp [hnp, he]
      rw [hres]
      exact ⟨rfl, fun v k hk =>
        reportEcho_not_mem f.pairs ["password", "confirmPassword"] k hk v⟩
  · intro db uid f hpw herr
    by_cases he : (changePasswordErrors db uid f).isEmpty = true
    · have hres : changePasswordAction db (some uid) f =
          ({ db with passwords := db.passwords.map (fun r =>
              if r.userId == uid then
                { r with hash := getPasswordHash (f.newPassword.getD "") }
              else r) },
           .redirectWithToast "/settings/profile" 302 [] "Password Changed") := by
        unfold changePasswordAction
        rw [show requireUserId (some uid) = Except.ok uid from rfl]
        simp [hpw, he]
      rw [hres] at herr
      exact absurd herr (by simp [isError400])
    · have hres : changePasswordAction db (some uid) f =
          (db, .errorData 400 (mkReport f.pairs
            ["currentPassword", "newPassword", "confirmNewPassword"]
            (changePasswordErrors db uid f) [])) := by
        unfold changePasswordAction
        rw [show requireUserId (some uid) = Except.ok uid from rfl]
        simp [hpw, he]
      rw [hres]
      exact ⟨rfl, fun v k hk =>
        reportEcho_not_mem f.pairs
          ["currentPassword", "newPassword", "confirmNewPassword"] k hk v⟩
  · intro db auth cookie authCookie f now email hguard
    by_cases hb : (signupFormErrors f).isEmpty = true
    · by_cases ht : db.users.any (fun u => u.username == f.username.getD "") = true
      · have hres : onboardingAction db auth cookie authCookie f now =
            (db, .errorData 400 (mkReport f.pairs []
              [("username", ["A user already exists with this username"])] [])) := by
          unfold onboardingAction
          rw [hguard]
          simp [hb, ht]
        rw [hres]
        refine ⟨rfl, fun _ pw hpw => ?_⟩
        show ("password", pw) ∈ reportEcho f.pairs []
        rw [reportEcho_nil_hidden]
        unfold OnboardingForm.pairs
        rw [hpw]
        simp [optPair]
      · rcases hs : signup db email (f.username.getD "") (f.name.getD "")
            (f.password.getD "") now with ⟨db1, srow⟩
        have hres : onboardingAction db auth cookie authCookie f now =
            (db1, .redirectWithToast (safeRedirect f.redirectTo) 302
              [.commitAuth (sessionSet authCookie sessionKey (.str srow.id))
                (match f.remember with
                 | some true => some srow.expirationDate
                 | _ => none),
               .destroyVerify] "Welcome") := by
          unfold onboardingAction
          rw [hguard]
          simp [hb, ht, hs]
        rw [hres]
        exact ⟨rfl, fun herr pw hpw => absurd herr (by simp [isError400])⟩
    · have hres : onboardingAction db auth cookie authCookie f now =
          (db, .errorData 400 (mkReport f.pairs [] (signupFormErrors f) [])) := by
        unfold onboardingAction
        rw [hguard]
        simp [hb]
      rw [hres]
      refine ⟨rfl, fun _ pw hpw => ?_⟩
      show ("password", pw) ∈ reportEcho f.pairs []
      rw [reportEcho_nil_hidden]
      unfold OnboardingForm.pairs
      rw [hpw]
      simp [optPair]
  · intro db auth cookie f username hguard
    by_cases he : (passwordPairErrors f.password f.confirmPassword).isEmpty = true
    · have hres : resetPasswordAction db auth cookie f =
          (resetUserPassword db username (f.password.getD ""),
           .redirect "/login" 302 [.destroyVerify]) := by
        unfold resetPasswordAction
        rw [hguard]
        simp [he]
      rw [hres]
      exact ⟨rfl, fun herr pw hpw => absurd herr (by simp [isError400])⟩
    · have hres : resetPasswordAction db auth cookie f =
          (db, .errorData 400 (mkReport f.pairs []
            (passwordPairErrors f.password f.confirmPassword) [])) := by
        unfold resetPasswordAction
        rw [hguard]
        simp [he]
      rw [hres]
      refine ⟨rfl, fun _ pw hpw => ?_⟩
      show ("password", pw) ∈ reportEcho f.pairs []
      rw [reportEcho_nil_hidden]
      unfold ResetPasswordForm.pairs
      rw [hpw]
      simp [optPair]

/-- Witness for the amended C4, at one concrete failing submission per
handler. -/
theorem c4_amended_witness :
    (isError400 (loginAction dbAlice none [] ⟨some "alice", none, none, none⟩ 0).2 = true ∧
     (Response.hiddenOf (loginAction dbAlice none [] ⟨some "alice", none, none, none⟩ 0).2 =
        ["password"] ∧
      ∀ v, ("password", v) ∉
        Response.echoOf (loginAction dbAlice none [] ⟨some "alice", none, none, none⟩ 0).2)) ∧
    (requireNoPassword dbEmpty "u9" = .ok () ∧
     isError400 (createPasswordAction dbEmpty (some "u9") ⟨none, none⟩).2 = true ∧
     (Response.hiddenOf (createPasswordAction dbEmpty (some "u9") ⟨none, none⟩).2 =
        ["password", "confirmPassword"] ∧
      ∀ v k, k ∈ (["password", "confirmPassword"] : List String) →
        (k, v) ∉ Response.echoOf (createPasswordAction dbEmpty (some "u9") ⟨none, none⟩).2)) ∧
    (requirePassword dbAlice "u1" = .ok () ∧
     isError400 (changePasswordAction dbAlice (some "u1") ⟨none, none, none⟩).2 = true ∧
     (Response.hiddenOf (changePasswordAction dbAlice (some "u1") ⟨none, none, none⟩).2 =
        ["currentPassword", "newPassword", "confirmNewPassword"] ∧
      ∀ v k, k ∈ (["currentPassword", "newPassword", "confirmNewPassword"] : List String) →
        (k, v) ∉
          Response.echoOf (changePasswordAction dbAlice (some "u1") ⟨none, none, none⟩).2)) ∧
    (requireOnboardingEmail none [(onboardingEmailSessionKey, SVal.str "a@b.c")] =
        .ok "a@b.c" ∧
     (Response.hiddenOf (onboardingAction dbEmpty none
        [(onboardingEmailSessionKey, SVal.str "a@b.c")] []
        ⟨none, none, none, none, none, some "pw123456", some "pw123456"⟩ 0).2 = [] ∧
      (isError400 (onboardingAction dbEmpty none
          [(onboardingEmailSessionKey, SVal.str "a@b.c")] []
          ⟨none, none, none, none, none, some "pw123456", some "pw123456"⟩ 0).2 = true →
        ∀ pw, (⟨none, none, none, none, none, some "pw123456", some "pw123456"⟩ :
            OnboardingForm).password = some pw →
          ("password", pw) ∈ Response.echoOf (onboardingAction dbEmpty none
            [(onboardingEmailSessionKey, SVal.str "a@b.c")] []
            ⟨none, none, none, none, none, some "pw123456", some "pw123456"⟩ 0).2))) ∧
    (requireResetPasswordUsername none
        [(resetPasswordUsernameSessionKey, SVal.str "alice")] = .ok "alice" ∧
     (Response.hiddenOf (resetPasswordAction dbEmpty none
        [(resetPasswordUsernameSessionKey, SVal.str "alice")] ⟨some "pw123456", none⟩).2 = [] ∧
      (isError400 (resetPasswordAction dbEmpty none
          [(resetPasswordUsernameSessionKey, SVal.str "alice")] ⟨some "pw123456", none⟩).2 = true →
        ∀ pw, (⟨some "pw123456", none⟩ : ResetPasswordForm).password = some pw →
          ("password", pw) ∈ Response.echoOf (resetPasswordAction dbEmpty none
            [(resetPasswordUsernameSessionKey, SVal.str "alice")]
            ⟨some "pw123456", none⟩).2))) :=
  ⟨⟨by decide,
    c4_amended_hidden_password_fields.1 dbAlice [] ⟨some "alice", none, none, none⟩ 0
      (by decide)⟩,
   ⟨by decide, by decide,
    c4_amended_hidden_password_fields.2.1 dbEmpty "u9" ⟨none, none⟩
      (by decide) (by decide)⟩,
   ⟨by decide, by decide,
    c4_amended_hidden_password_fields.2.2.1 dbAlice "u1" ⟨none, none, none⟩
      (by decide) (by decide)⟩,
   ⟨by decide,
    c4_amended_hidden_password_fields.2.2.2.1 dbEmpty none
      [(onboardingEmailSessionKey, SVal.str "a@b.c")] []
      ⟨none, none, none, none, none, some "pw123456", some "pw123456"⟩ 0 "a@b.c"
      (by decide)⟩,
   ⟨by decide,
    c4_amended_hidden_password_fields.2.2.2.2 dbEmpty none
      [(resetPasswordUsernameSessionKey, SVal.str "alice")]
      ⟨some "pw123456", none⟩ "alice" (by decide)⟩⟩

/-! ## C5: change-password with a wrong current password -/

/-- C5: for every authenticated change-password submission whose fields all
parse and match but whose `currentPassword` does not match the stored hash,
the action returns HTTP 400 with the single field error
`Incorrect password.` on `currentPassword` (no error on `newPassword` or
`confirmNewPassword`), and the stored password hash is unchanged. -/
theorem c5_change_password_wrong_current (db : DB) (uid : String)
    (f : ChangePasswordForm) (cp np : String)
    (hcp : f.currentPassword = some cp) (hnp : f.newPassword = some np)
    (hcnp : f.confirmNewPassword = some np)
    (hcpok : passwordOk cp = true) (hnpok : passwordOk np = true)
    (hpw : requirePassword db uid = .ok ())
    (hverify : verifyUserPassword db uid cp = false) :
    changePasswordAction db (some uid) f =
      (db, .errorData 400 (mkReport f.pairs
        ["currentPassword", "newPassword", "confirmNewPassword"]
        [("currentPassword", ["Incorrect password."])] [])) := by
  have hbase : changePasswordBaseErrors f = [] := by
    unfold changePasswordBaseErrors requiredField
    rw [hcp, hnp, hcnp]
    simp [hcpok, hnpok]
  have herrs : changePasswordErrors db uid f =
      [("currentPassword", ["Incorrect password."])] := by
    unfold changePasswordErrors
    rw [hbase]
    unfold changePasswordRefineErrors
    rw [hcp, hnp, hcnp]
    have h1 : ¬(cp.isEmpty = true) := by
      unfold passwordOk at hcpok
      simp at hcpok ⊢
      simpa using hcpok
    have h2 : ¬(np.isEmpty = true) := by
      unfold passwordOk at hnpok
      simp at hnpok ⊢
      simpa using hnpok
    simp [h1, h2, hverify]
  unfold changePasswordAction
  rw [show requireUserId (some uid) = Except.ok uid from rfl]
  simp [hpw, herrs]

/-- Witness for C5: alice submits the wrong current password. -/
theorem c5_witness :
    (⟨some "wrongpass", some "newpass99", some "newpass99"⟩ :
        ChangePasswordForm).currentPassword = some "wrongpass" ∧
    passwordOk "wrongpass" = true ∧
    requirePassword dbAlice "u1" = .ok () ∧
    verifyUserPassword dbAlice "u1" "wrongpass" = false ∧
    changePasswordAction dbAlice (some "u1")
      ⟨some "wrongpass", some "newpass99", some "newpass99"⟩ =
      (dbAlice, .errorData 400 (mkReport
        (⟨some "wrongpass", some "newpass99", some "newpass99"⟩ :
          ChangePasswordForm).pairs
        ["currentPassword", "newPassword", "confirmNewPassword"]
        [("currentPassword", ["Incorrect password."])] [])) :=
  ⟨rfl, by decide, by decide, by decide,
   c5_change_password_wrong_current dbAlice "u1"
     ⟨some "wrongpass", some "newpass99", some "newpass99"⟩ "wrongpass" "newpass99"
     rfl rfl rfl (by decide) (by decide) (by decide) (by decide)⟩

/-! ## C8: remember-me drives the auth cookie expiry on signup -/

/-- C8: on every successful onboarding completion (plain and provider
signup), the auth session cookie is committed with expiry equal to the
persisted session row's `expirationDate` when `remember` was checked, and
with no expiry (a session cookie) otherwise. -/
theorem c8_remember_drives_cookie_expiry :
    (∀ (db : DB) (auth : Option String) (cookie authCookie : SessionData)
        (f : OnboardingForm) (now : Nat) (email : String),
      requireOnboardingEmail auth cookie = .ok email →
      (signupFormErrors f).isEmpty = true →
      db.users.any (fun u => u.username == f.username.getD "") = false →
      ∃ srow : SessionRow,
        (onboardingAction db auth cookie authCookie f now).1.sessions =
          db.sessions ++ [srow] ∧
        (f.remember = some true →
          Response.cookiesOf (onboardingAction db auth cookie authCookie f now).2 =
            [.commitAuth (sessionSet authCookie sessionKey (.str srow.id))
               (some srow.expirationDate), .destroyVerify]) ∧
        (f.remember ≠ some true →
          Response.cookiesOf (onboardingAction db auth cookie authCookie f now).2 =
            [.commitAuth (sessionSet authCookie sessionKey (.str srow.id)) none,
             .destroyVerify])) ∧
    (∀ (db : DB) (auth : Option String) (cookie authCookie : SessionData)
        (pp : String) (f : ProviderForm) (now : Nat)
        (email pid pname : String),
      requireProviderData auth cookie pp = .ok (email, pid, pname) →
      (providerFormErrors f).isEmpty = true →
      db.users.any (fun u => u.username == f.username.getD "") = false →
      ∃ srow : SessionRow,
        (providerOnboardingAction db auth cookie authCookie pp f now).1.sessions =
          db.sessions ++ [srow] ∧
        (f.remember = some true →
          Response.cookiesOf
              (providerOnboardingAction db auth cookie authCookie pp f now).2 =
            [.commitAuth (sessionSet authCookie sessionKey (.str srow.id))
               (some srow.expirationDate), .destroyVerify]) ∧
        (f.remember ≠ some true →
          Response.cookiesOf
              (providerOnboardingAction db auth cookie authCookie pp f now).2 =
            [.commitAuth (sessionSet authCookie sessionKey (.str srow.id)) none,
             .destroyVerify])) := by
  constructor
  · intro db auth cookie authCookie f now email hguard hb ht
    rcases hs : signup db email (f.username.getD "") (f.name.getD "")
        (f.password.getD "") now with ⟨db1, srow⟩
    have hres : onboardingAction db auth cookie authCookie f now =
        (db1, .redirectWithToast (safeRedirect f.redirectTo) 302
          [.commitAuth (sessionSet authCookie sessionKey (.str srow.id))
            (match f.remember with
             | some true => some srow.expirationDate
             | _ => none),
           .destroyVerify] "Welcome") := by
      unfold onboardingAction
      rw [hguard]
      simp [hb, ht, hs]
    have hses : db1.sessions = db.sessions ++ [srow] := by
      have hd : (signup db email (f.username.getD "") (f.name.getD "")
          (f.password.getD "") now).1.sessions =
          db.sessions ++ [(signup db email (f.username.getD "") (f.name.getD "")
            (f.password.getD "") now).2] := rfl
      rw [hs] at hd
      exact hd
    refine ⟨srow, by rw [hres]; exact hses, ?_, ?_⟩
    · intro hrem
      rw [hres]
      simp [Response.cookiesOf, hrem]
    · intro hrem
      rw [hres]
      rcases hr : f.remember with _ | b
      · rfl
      · cases b
        · rfl
        · rw [hr] at hrem
          exact absurd rfl hrem
  · intro db auth cookie authCookie pp f now email pid pname hguard hb ht
    rcases hs : signupWithConnection db email (f.username.getD "") (f.name.getD "")
        pid pname now with ⟨db1, srow⟩
    have hres : providerOnboardingAction db auth cookie authCookie pp f now =
        (db1, .redirectWithToast (safeRedirect f.redirectTo) 302
          [.commitAuth (sessionSet authCookie sessionKey (.str srow.id))
            (match f.remember with
             | some true => some srow.expirationDate
             | _ => none),
           .destroyVerify] "Welcome") := by
      unfold providerOnboardingAction
      rw [hguard]
      simp [hb, ht, hs]
    have hses : db1.sessions = db.sessions ++ [srow] := by
      have hd : (signupWithConnection db email (f.username.getD "") (f.name.getD "")
          pid pname now).1.sessions =
          db.sessions ++ [(signupWithConnection db email (f.username.getD "")
            (f.name.getD "") pid pname now).2] := rfl
      rw [hs] at hd
      exact hd
    refine ⟨srow, by rw [hres]; exact hses, ?_, ?_⟩
    · intro hrem
      rw [hres]
      simp [Response.cookiesOf, hrem]
    · intro hrem
      rw [hres]
      rcases hr : f.remember with _ | b
      · rfl
      · cases b
        · rfl
        · rw [hr] at hrem
          exact absurd rfl hrem

/-- Witness for C8: a remembered plain signup and an un-remembered provider
signup. -/
theorem c8_witness :
    (requireOnboardingEmail none [(onboardingEmailSessionKey, SVal.str "b@c.d")] =
        .ok "b@c.d" ∧
     (signupFormErrors ⟨some "bob", some "Bob", some true, some true, none,
        some "pw123456", some "pw123456"⟩).isEmpty = true ∧
     dbEmpty.users.any (fun u => u.username ==
        ((⟨some "bob", some "Bob", some true, some true, none,
          some "pw123456", some "pw123456"⟩ : OnboardingForm)).username.getD "") = false ∧
     ∃ srow : SessionRow,
       (onboardingAction dbEmpty none [(onboardingEmailSessionKey, SVal.str "b@c.d")] []
          ⟨some "bob", some "Bob", some true, some true, none,
            some "pw123456", some "pw123456"⟩ 7).1.sessions =
         dbEmpty.sessions ++ [srow] ∧
       ((⟨some "bob", some "Bob", some true, some true, none,
          some "pw123456", some "pw123456"⟩ : OnboardingForm).remember = some true →
         Response.cookiesOf (onboardingAction dbEmpty none
            [(onboardingEmailSessionKey, SVal.str "b@c.d")] []
            ⟨some "bob", some "Bob", some true, some true, none,
              some "pw123456", some "pw123456"⟩ 7).2 =
           [.commitAuth (sessionSet [] sessionKey (.str srow.id))
              (some srow.expirationDate), .destroyVerify]) ∧
       ((⟨some "bob", some "Bob", some true, some true, none,
          some "pw123456", some "pw123456"⟩ : OnboardingForm).remember ≠ some true →
         Response.cookiesOf (onboardingAction dbEmpty none
            [(onboardingEmailSessionKey, SVal.str "b@c.d")] []
            ⟨some "bob", some "Bob", some true, some true, none,
              some "pw123456", some "pw123456"⟩ 7).2 =
           [.commitAuth (sessionSet [] sessionKey (.str srow.id)) none,
            .destroyVerify])) ∧
    (requireProviderData none
        [(onboardingEmailSessionKey, SVal.str "b@c.d"), (providerIdKey, SVal.str "p7")]
        "github" = .ok ("b@c.d", "p7", "github") ∧
     (providerFormErrors ⟨none, some "carl", some "Carl", some true, none, none⟩).isEmpty
        = true ∧
     dbEmpty.users.any (fun u => u.username ==
        ((⟨none, some "carl", some "Carl", some true, none, none⟩ :
          ProviderForm)).username.getD "") = false ∧
     ∃ srow : SessionRow,
       (providerOnboardingAction dbEmpty none
          [(onboardingEmailSessionKey, SVal.str "b@c.d"), (providerIdKey, SVal.str "p7")]
          [] "github" ⟨none, some "carl", some "Carl", some true, none, none⟩ 7).1.sessions =
         dbEmpty.sessions ++ [srow] ∧
       ((⟨none, some "carl", some "Carl", some true, none, none⟩ :
          ProviderForm).remember = some true →
         Response.cookiesOf (providerOnboardingAction dbEmpty none
            [(onboardingEmailSessionKey, SVal.str "b@c.d"), (providerIdKey, SVal.str "p7")]
            [] "github" ⟨none, some "carl", some "Carl", some true, none, none⟩ 7).2 =
           [.commitAuth (sessionSet [] sessionKey (.str srow.id))
              (some srow.expirationDate), .destroyVerify]) ∧
       ((⟨none, some "carl", some "Carl", some true, none, none⟩ :
          ProviderForm).remember ≠ some true →
         Response.cookiesOf (providerOnboardingAction dbEmpty none
            [(onboardingEmailSessionKey, SVal.str "b@c.d"), (providerIdKey, SVal.str "p7")]
            [] "github" ⟨none, some "carl", some "Carl", some true, none, none⟩ 7).2 =
           [.commitAuth (sessionSet [] sessionKey (.str srow.id)) none,
            .destroyVerify])) :=
  ⟨⟨by decide, by decide, by decide,
    c8_remember_drives_cookie_expiry.1 dbEmpty none
      [(onboardingEmailSessionKey, SVal.str "b@c.d")] []
      ⟨some "bob", some "Bob", some true, some true, none,
        some "pw123456", some "pw123456"⟩ 7 "b@c.d"
      (by decide) (by decide) (by decide)⟩,
   ⟨by decide, by decide, by decide,
    c8_remember_drives_cookie_expiry.2 dbEmpty none
      [(onboardingEmailSessionKey, SVal.str "b@c.d"), (providerIdKey, SVal.str "p7")]
      [] "github" ⟨none, some "carl", some "Carl", some true, none, none⟩ 7
      "b@c.d" "p7" "github" (by decide) (by decide) (by decide)⟩⟩

/-! ## C9: flow completion destroys the verification session -/

/-- C9: the success redirect of each flow-completing action — onboarding
signup, provider onboarding and reset-password — carries the `set-cookie`
header produced by destroying the verification session, so the flow's
ephemeral state does not survive completion. -/
theorem c9_flow_completion_destroys_verification :
    (∀ (db : DB) (auth : Option String) (cookie authCookie : SessionData)
        (f : OnboardingForm) (now : Nat) (email : String),
      requireOnboardingEmail auth cookie = .ok email →
      (signupFormErrors f).isEmpty = true →
      db.users.any (fun u => u.username == f.username.getD "") = false →
      SetCookie.destroyVerify ∈
        Response.cookiesOf (onboardingAction db auth cookie authCookie f now).2) ∧
    (∀ (db : DB) (auth : Option String) (cookie authCookie : SessionData)
        (pp : String) (f : ProviderForm) (now : Nat)
        (email pid pname : String),
      requireProviderData auth cookie pp = .ok (email, pid, pname) →
      (providerFormErrors f).isEmpty = true →
      db.users.any (fun u => u.username == f.username.getD "") = false →
      SetCookie.destroyVerify ∈
        Response.cookiesOf
          (providerOnboardingAction db auth cookie authCookie pp f now).2) ∧
    (∀ (db : DB) (auth : Option String) (cookie : SessionData)
        (f : ResetPasswordForm) (username : String),
      requireResetPasswordUsername auth cookie = .ok username →
      (passwordPairErrors f.password f.confirmPassword).isEmpty = true →
      SetCookie.destroyVerify ∈
        Response.cookiesOf (resetPasswordAction db auth cookie f).2) := by
  refine ⟨?_, ?_, ?_⟩
  · intro db auth cookie authCookie f now email hguard hb ht
    rcases hs : signup db email (f.username.getD "") (f.name.getD "")
        (f.password.getD "") now with ⟨db1, srow⟩
    have hres : onboardingAction db auth cookie authCookie f now =
        (db1, .redirectWithToast (safeRedirect f.redirectTo) 302
          [.commitAuth (sessionSet authCookie sessionKey (.str srow.id))
            (match f.remember with
             | some true => some srow.expirationDate
             | _ => none),
           .destroyVerify] "Welcome") := by
      unfold onboardingAction
      rw [hguard]
      simp [hb, ht, hs]
    rw [hres]
    simp [Response.cookiesOf]
  · intro db auth cookie authCookie pp f now email pid pname hguard hb ht
    rcases hs : signupWithConnection db email (f.username.getD "") (f.name.getD "")
        pid pname now with ⟨db1, srow⟩
    have hres : providerOnboardingAction db auth cookie authCookie pp f now =
        (db1, .redirectWithToast (safeRedirect f.redirectTo) 302
          [.commitAuth (sessionSet authCookie sessionKey (.str srow.id))
            (match f.remember with
             | some true => some srow.expirationDate
             | _ => none),
           .destroyVerify] "Welcome") := by
      unfold providerOnboardingAction
      rw [hguard]
      simp [hb, ht, hs]
    rw [hres]
    simp [Response.cookiesOf]
  · intro db auth cookie f username hguard he
    have hres : resetPasswordAction db auth cookie f =
        (resetUserPassword db username (f.password.getD ""),
         .redirect "/login" 302 [.destroyVerify]) := by
      unfold resetPasswordAction
      rw [hguard]
      simp [he]
    rw [hres]
    simp [Response.cookiesOf]

/-- Witness for C9 at the same concrete successful submissions. -/
theorem c9_witness :
    (requireOnboardingEmail none [(onboardingEmailSessionKey, SVal.str "b@c.d")] =
        .ok "b@c.d" ∧
     SetCookie.destroyVerify ∈
       Response.cookiesOf (onboardingAction dbEmpty none
          [(onboardingEmailSessionKey, SVal.str "b@c.d")] []
          ⟨some "bob", some "Bob", some true, some true, none,
            some "pw123456", some "pw123456"⟩ 7).2) ∧
    (SetCookie.destroyVerify ∈
       Response.cookiesOf (providerOnboardingAction dbEmpty none
          [(onboardingEmailSessionKey, SVal.str "b@c.d"), (providerIdKey, SVal.str "p7")]
          [] "github" ⟨none, some "carl", some "Carl", some true, none, none⟩ 7).2) ∧
    (requireResetPasswordUsername none
        [(resetPasswordUsernameSessionKey, SVal.str "alice")] = .ok "alice" ∧
     SetCookie.destroyVerify ∈
       Response.cookiesOf (resetPasswordAction dbAlice none
          [(resetPasswordUsernameSessionKey, SVal.str "alice")]
          ⟨some "pw123456", some "pw123456"⟩).2) :=
  ⟨⟨by decide,
    c9_flow_completion_destroys_verification.1 dbEmpty none
      [(onboardingEmailSessionKey, SVal.str "b@c.d")] []
      ⟨some "bob", some "Bob", some true, some true, none,
        some "pw123456", some "pw123456"⟩ 7 "b@c.d"
      (by decide) (by decide) (by decide)⟩,
   c9_flow_completion_destroys_verification.2.1 dbEmpty none
     [(onboardingEmailSessionKey, SVal.str "b@c.d"), (providerIdKey, SVal.str "p7")]
     [] "github" ⟨none, some "carl", some "Carl", some true, none, none⟩ 7
     "b@c.d" "p7" "github" (by decide) (by decide) (by decide),
   ⟨by decide,
    c9_flow_completion_destroys_verification.2.2 dbAlice none
      [(resetPasswordUsernameSessionKey, SVal.str "alice")]
      ⟨some "pw123456", some "pw123456"⟩ "alice" (by decide) (by decide)⟩⟩

/-! ## C10: the two create-password implementations agree -/


/-- C10: the legacy `parseWithZod` create-password action and the
conform-react one are observationally equivalent on every submit-type
submission, and leave the database in the same state: same redirect when
the user already has a password, same 400 report with the password fields
hidden when the form is invalid, same created hash and 302 redirect to
`/settings/profile` when it is valid. -/
theorem c10_create_password_equivalence (db : DB) (auth : Option String)
    (f : CreatePasswordForm) :
    observeLegacy (createPasswordActionLegacy db auth .submit f).2 =
      observeResponse (createPasswordAction db auth f).2 ∧
    (createPasswordActionLegacy db auth .submit f).1 =
      (createPasswordAction db auth f).1 := by
  rcases auth with _ | uid
  · exact ⟨rfl, rfl⟩
  · rcases hf : db.passwords.find? (fun r => r.userId == uid) with _ | row
    · have hok : requireNoPassword db uid = .ok () := by
        unfold requireNoPassword
        rw [hf]
      by_cases he : (passwordPairErrors f.password f.confirmPassword).isEmpty = true
      · have h1 : createPasswordActionLegacy db (some uid) .submit f =
            (createPasswordRow db uid (f.password.getD ""),
             .redirect "/settings/profile" 302) := by
          unfold createPasswordActionLegacy
          rw [show requireUserId (some uid) = Except.ok uid from rfl]
          simp [hok, he]
        have h2 : createPasswordAction db (some uid) f =
            (createPasswordRow db uid (f.password.getD ""),
             .redirect "/settings/profile" 302 []) := by
          unfold createPasswordAction
          rw [show requireUserId (some uid) = Except.ok uid from rfl]
          simp [hok, he]
        rw [h1, h2]
        exact ⟨rfl, rfl⟩
      · have h1 : createPasswordActionLegacy db (some uid) .submit f =
            (db, .jsonReject 400
              (passwordPairErrors f.password f.confirmPassword)
              ["password", "confirmPassword"]
              (reportEcho f.pairs ["password", "confirmPassword"])) := by
          unfold createPasswordActionLegacy
          rw [show requireUserId (some uid) = Except.ok uid from rfl]
          simp [hok, he]
        have h2 : createPasswordAction db (some uid) f =
            (db, .errorData 400 (mkReport f.pairs ["password", "confirmPassword"]
              (passwordPairErrors f.password f.confirmPassword) [])) := by
          unfold createPasswordAction
          rw [show requireUserId (some uid) = Except.ok uid from rfl]
          simp [hok, he]
        rw [h1, h2]
        exact ⟨rfl, rfl⟩
    · have herr : requireNoPassword db uid =
          .error (.redirect "/settings/profile/password" 302 []) := by
        unfold requireNoPassword
        rw [hf]
      have h1 : createPasswordActionLegacy db (some uid) .submit f =
          (db, .redirect "/settings/profile/password" 302) := by
        unfold createPasswordActionLegacy
        rw [show requireUserId (some uid) = Except.ok uid from rfl]
        simp [herr]
      have h2 : createPasswordAction db (some uid) f =
          (db, .redirect "/settings/profile/password" 302 []) := by
        unfold createPasswordAction
        rw [show requireUserId (some uid) = Except.ok uid from rfl]
        simp [herr]
      rw [h1, h2]
      exact ⟨rfl, rfl⟩
